import Mathlib

/-!
Shallow embedding of the ForexPredict signal pipeline:
the technical-indicator calculators (`TechnicalIndicators` in
`server/services/indicators.ts`), the divergence detector
(`server/services/divergence-detector.ts`) and the signal engine
(`server/services/signal-engine.ts`).

JavaScript numbers are modelled by rationals (`ℚ`).  Where the
JavaScript semantics of division by zero matters (the stochastic
oscillator's `k || 50`), a dedicated extended-number type `JsNum`
models `NaN` and the two infinities exactly; everywhere else the
source never divides by zero on the paths the statements reach, or the
statement's hypotheses rule it out.
-/

namespace ForexPredict

/-- `l.slice(-n)` of JavaScript: the last `n` elements of `l`
(all of `l` when `l.length ≤ n`). -/
def lastN (n : ℕ) (l : List α) : List α :=
  l.drop (l.length - n)

/-- Result record of `calculateMACD` (`{ macd, signal, histogram }`). -/
structure MacdResult where
  macd : ℚ
  signal : ℚ
  histogram : ℚ
deriving DecidableEq, Repr, Inhabited

/-- Result record of `calculateStochastic` (`{ k, d }`). -/
structure StochResult where
  k : ℚ
  d : ℚ
deriving DecidableEq, Repr, Inhabited

/-- The `ema` component of `IndicatorResult` (`{ fast, slow }`). -/
structure EmaResult where
  fast : ℚ
  slow : ℚ
deriving DecidableEq, Repr, Inhabited

/-- `IndicatorResult` of `indicators.ts`. -/
structure IndicatorResult where
  rsi : ℚ
  macd : MacdResult
  stochastic : StochResult
  ema : EmaResult
  adx : ℚ
deriving DecidableEq, Repr, Inhabited

/-- `TechnicalIndicators.calculateRSI`.  Wilder smoothing over the whole
price list; returns the neutral `50` when fewer than `period + 1`
samples are given. -/
def calculateRSI (prices : List ℚ) (period : ℕ := 14) : ℚ :=
  if prices.length < period + 1 then 50
  else
    let change : ℕ → ℚ := fun i => prices.getD i 0 - prices.getD (i - 1) 0
    let gains :=
      ((List.range period).map (fun j =>
        let c := change (j + 1); if c > 0 then c else 0)).sum
    let losses :=
      ((List.range period).map (fun j =>
        let c := change (j + 1); if c > 0 then 0 else |c|)).sum
    let avgGain0 := gains / (period : ℚ)
    let avgLoss0 := losses / (period : ℚ)
    let smoothed :=
      (List.range (prices.length - (period + 1))).foldl
        (fun (a : ℚ × ℚ) j =>
          let i := period + 1 + j
          let c := change i
          let gain := if c > 0 then c else 0
          let loss := if c < 0 then |c| else 0
          ((a.1 * ((period : ℚ) - 1) + gain) / (period : ℚ),
           (a.2 * ((period : ℚ) - 1) + loss) / (period : ℚ)))
        (avgGain0, avgLoss0)
    if smoothed.2 = 0 then 100
    else
      let rs := smoothed.1 / smoothed.2
      100 - 100 / (1 + rs)

/-- `TechnicalIndicators.calculateEMA`: seeded with the first price,
then `ema = (p - ema) * multiplier + ema` over the rest. -/
def calculateEMA (prices : List ℚ) (period : ℕ) : ℚ :=
  match prices with
  | [] => 0
  | p :: rest =>
    let multiplier := 2 / ((period : ℚ) + 1)
    rest.foldl (fun ema p2 => (p2 - ema) * multiplier + ema) p

/-- `TechnicalIndicators.calculateMACD`: zero triple below `slowPeriod`
samples, otherwise `macd = fastEMA - slowEMA`, with the simplified
`signal = macd * 0.9` of the source. -/
def calculateMACD (prices : List ℚ) (fastPeriod : ℕ := 12)
    (slowPeriod : ℕ := 26) : MacdResult :=
  if prices.length < slowPeriod then ⟨0, 0, 0⟩
  else
    let fastEMA := calculateEMA prices fastPeriod
    let slowEMA := calculateEMA prices slowPeriod
    let macdLine := fastEMA - slowEMA
    let signalLine := macdLine * (9 / 10)
    ⟨macdLine, signalLine, macdLine - signalLine⟩

/-- `Math.max(...l)` over a nonempty list, `0` for the empty list (the
source only reaches it with a window of `kPeriod > 0` elements). -/
def listMax (l : List ℚ) : ℚ :=
  match l with
  | [] => 0
  | h :: t => t.foldl max h

/-- `Math.min(...l)` over a nonempty list, `0` for the empty list. -/
def listMin (l : List ℚ) : ℚ :=
  match l with
  | [] => 0
  | h :: t => t.foldl min h

/-- `TechnicalIndicators.calculateStochastic` over `ℚ` (Lean's
`x / 0 = 0` convention stands in for the `NaN`/`Infinity` of
JavaScript; `calculateStochasticJs` below models those exactly).
The source returns `{ k: k || 50, d: d || 50 }`: in `ℚ` the falsy
values are exactly `0`. -/
def calculateStochastic (highs lows closes : List ℚ)
    (kPeriod : ℕ := 14) : StochResult :=
  if closes.length < kPeriod then ⟨50, 50⟩
  else
    let recentHighs := lastN kPeriod highs
    let recentLows := lastN kPeriod lows
    let currentClose := closes.getD (closes.length - 1) 0
    let highestHigh := listMax recentHighs
    let lowestLow := listMin recentLows
    let k := ((currentClose - lowestLow) / (highestHigh - lowestLow)) * 100
    let d := k * (19 / 20)
    ⟨if k = 0 then 50 else k, if d = 0 then 50 else d⟩

/-- `TechnicalIndicators.calculateADX`: simplified directional index of
the source over the first `period + 1` samples; `25` on short input or
degenerate denominators. -/
def calculateADX (highs lows closes : List ℚ) (period : ℕ := 14) : ℚ :=
  if closes.length < period + 1 then 25
  else
    let n := min closes.length (period + 1)
    let totals :=
      (List.range (n - 1)).foldl
        (fun (acc : ℚ × ℚ × ℚ) j =>
          let i := j + 1
          let highDiff := highs.getD i 0 - highs.getD (i - 1) 0
          let lowDiff := lows.getD (i - 1) 0 - lows.getD i 0
          let dmPlus := if highDiff > lowDiff ∧ highDiff > 0 then highDiff else 0
          let dmMinus := if lowDiff > highDiff ∧ lowDiff > 0 then lowDiff else 0
          let trueRange :=
            max (highs.getD i 0 - lows.getD i 0)
              (max |highs.getD i 0 - closes.getD (i - 1) 0|
                |lows.getD i 0 - closes.getD (i - 1) 0|)
          (acc.1 + trueRange, acc.2.1 + dmPlus, acc.2.2 + dmMinus))
        (0, 0, 0)
    if totals.1 = 0 then 25
    else
      let diPlus := totals.2.1 / totals.1 * 100
      let diMinus := totals.2.2 / totals.1 * 100
      if diPlus + diMinus = 0 then 25
      else |diPlus - diMinus| / (diPlus + diMinus) * 100

/-- `TechnicalIndicators.calculateAllIndicators`. -/
def calculateAllIndicators (prices highs lows closes : List ℚ) :
    IndicatorResult :=
  { rsi := calculateRSI prices
    macd := calculateMACD prices
    stochastic := calculateStochastic highs lows closes
    ema := { fast := calculateEMA prices 9, slow := calculateEMA prices 21 }
    adx := calculateADX highs lows closes }

/-- A local extremum found by `findExtremes`: `{ index, value }`. -/
structure ExtremePoint where
  index : ℚ
  value : ℚ
deriving DecidableEq, Repr, Inhabited

/-- `DivergenceCandidate` of `divergence-detector.ts`; the `type` and
`indicator` discriminants are kept as strings like the source. -/
structure DivergenceCandidate where
  type : String
  indicator : String
  strength : ℚ
  pricePoints : List ExtremePoint
  indicatorPoints : List ExtremePoint
  description : String
deriving DecidableEq, Repr, Inhabited

/-- The private state of a `DivergenceDetector` instance: the price
history and the three indicator-proxy histories (`rsi`, `macd`
histogram, `stochastic` %K). -/
structure DetectorState where
  priceHistory : List ℚ
  rsiHistory : List ℚ
  macdHistory : List ℚ
  stochasticHistory : List ℚ
deriving DecidableEq, Repr, Inhabited

/-- A freshly constructed `DivergenceDetector`. -/
def DetectorState.init : DetectorState := ⟨[], [], [], []⟩

/-- `DivergenceDetector.minBarsForDivergence`. -/
def minBarsForDivergence : ℕ := 5

/-- `DivergenceDetector.maxHistoryLength`. -/
def maxHistoryLength : ℕ := 100

/-- `DivergenceDetector.addDataPoint`: push price, `rsi`,
`macd.histogram` and `stochastic.k`, then trim every history to the
last `maxHistoryLength` entries when the price history has grown past
the bound. -/
def addDataPoint (s : DetectorState) (price : ℚ)
    (indicators : IndicatorResult) : DetectorState :=
  let p := s.priceHistory ++ [price]
  let r := s.rsiHistory ++ [indicators.rsi]
  let m := s.macdHistory ++ [indicators.macd.histogram]
  let st := s.stochasticHistory ++ [indicators.stochastic.k]
  if p.length > maxHistoryLength then
    ⟨lastN maxHistoryLength p, lastN maxHistoryLength r,
     lastN maxHistoryLength m, lastN maxHistoryLength st⟩
  else ⟨p, r, m, st⟩

/-- `DivergenceDetector.findExtremes`: strict local maxima and minima of
the interior indices, as `(maxima, minima)`. -/
def findExtremes (data : List ℚ) :
    List ExtremePoint × List ExtremePoint :=
  let maxima := (List.range data.length).filterMap (fun i =>
    if 1 ≤ i ∧ i + 1 < data.length ∧ data.getD i 0 > data.getD (i - 1) 0 ∧
        data.getD i 0 > data.getD (i + 1) 0
    then some ⟨(i : ℚ), data.getD i 0⟩ else none)
  let minima := (List.range data.length).filterMap (fun i =>
    if 1 ≤ i ∧ i + 1 < data.length ∧ data.getD i 0 < data.getD (i - 1) 0 ∧
        data.getD i 0 < data.getD (i + 1) 0
    then some ⟨(i : ℚ), data.getD i 0⟩ else none)
  (maxima, minima)

/-- `DivergenceDetector.calculateDivergenceStrength`.  The price change
is divided by the signed `point1.value`; the indicator change by
`Math.abs(indPoint1.value || 1)`, which is `1` when the value is `0`
and `|value|` otherwise. -/
def calculateDivergenceStrength (point1 point2 indPoint1 indPoint2 :
    ExtremePoint) : ℚ :=
  let priceChange := |point2.value - point1.value| / point1.value
  let indicatorChange := |indPoint2.value - indPoint1.value| /
    |if indPoint1.value = 0 then 1 else indPoint1.value|
  let timeDiff := |point2.index - point1.index|
  let strength := (priceChange + indicatorChange) * min (timeDiff / 5) 1
  min strength 1

/-- `DivergenceDetector.checkIndicatorDivergence`: compares the last two
price minima against the last two indicator minima (bullish) and the
last two maxima against each other (bearish), keeping candidates whose
strength exceeds `0.3`. -/
def checkIndicatorDivergence (prices indicatorValues : List ℚ)
    (indicatorName : String) : List DivergenceCandidate :=
  let len := min prices.length indicatorValues.length
  if len < minBarsForDivergence then []
  else
    let recentPrices := lastN minBarsForDivergence prices
    let recentIndicator := lastN minBarsForDivergence indicatorValues
    let priceExtremes := findExtremes recentPrices
    let indicatorExtremes := findExtremes recentIndicator
    let bullish :=
      if priceExtremes.2.length ≥ 2 ∧ indicatorExtremes.2.length ≥ 2 then
        let priceMin1 := priceExtremes.2.getD (priceExtremes.2.length - 2) default
        let priceMin2 := priceExtremes.2.getD (priceExtremes.2.length - 1) default
        let indMin1 := indicatorExtremes.2.getD (indicatorExtremes.2.length - 2) default
        let indMin2 := indicatorExtremes.2.getD (indicatorExtremes.2.length - 1) default
        if priceMin2.value < priceMin1.value ∧ indMin2.value > indMin1.value then
          let strength := calculateDivergenceStrength priceMin1 priceMin2 indMin1 indMin2
          if strength > 3 / 10 then
            [{ type := "bullish", indicator := indicatorName, strength
               pricePoints := [priceMin1, priceMin2]
               indicatorPoints := [indMin1, indMin2]
               description := indicatorName ++
                 " bullish divergence: price making lower lows while " ++
                 indicatorName ++ " shows higher lows" }]
          else []
        else []
      else []
    let bearish :=
      if priceExtremes.1.length ≥ 2 ∧ indicatorExtremes.1.length ≥ 2 then
        let priceMax1 := priceExtremes.1.getD (priceExtremes.1.length - 2) default
        let priceMax2 := priceExtremes.1.getD (priceExtremes.1.length - 1) default
        let indMax1 := indicatorExtremes.1.getD (indicatorExtremes.1.length - 2) default
        let indMax2 := indicatorExtremes.1.getD (indicatorExtremes.1.length - 1) default
        if priceMax2.value > priceMax1.value ∧ indMax2.value < indMax1.value then
          let strength := calculateDivergenceStrength priceMax1 priceMax2 indMax1 indMax2
          if strength > 3 / 10 then
            [{ type := "bearish", indicator := indicatorName, strength
               pricePoints := [priceMax1, priceMax2]
               indicatorPoints := [indMax1, indMax2]
               description := indicatorName ++
                 " bearish divergence: price making higher highs while " ++
                 indicatorName ++ " shows lower highs" }]
          else []
        else []
      else []
    bullish ++ bearish

/-- `DivergenceDetector.detectDivergences`: empty below
`minBarsForDivergence` samples, otherwise the RSI, MACD-histogram and
Stochastic candidates in that order. -/
def detectDivergences (s : DetectorState) : List DivergenceCandidate :=
  if s.priceHistory.length < minBarsForDivergence then []
  else
    checkIndicatorDivergence s.priceHistory s.rsiHistory "RSI" ++
    checkIndicatorDivergence s.priceHistory s.macdHistory "MACD" ++
    checkIndicatorDivergence s.priceHistory s.stochasticHistory "Stochastic"

/-- `backtestStats` component of a signal. -/
structure BacktestStats where
  winrate : ℚ
  avgWinPct : ℚ
  avgLossPct : ℚ
deriving DecidableEq, Repr, Inhabited

/-- `InsertTradingSignal` as produced by the engine (the fields the
engine writes). -/
structure InsertTradingSignal where
  pair : String
  timeframe : String
  signal : String
  confidence : ℚ
  reason : String
  entryPrice : ℚ
  entryType : String
  stopLoss : Option ℚ
  takeProfit : Option ℚ
  predictionHorizonMins : ℚ
  expectedMovePct : ℚ
  indicatorValues : IndicatorResult
  backtestStats : BacktestStats
deriving DecidableEq, Repr, Inhabited

/-- `ConfirmationRule` of `signal-engine.ts`. -/
structure ConfirmationRule where
  name : String
  check : IndicatorResult → List IndicatorResult → Bool
  weight : ℚ

/-- `SignalEngine.maxHistoryLength`. -/
def engineMaxHistoryLength : ℕ := 50

/-- `SignalEngine.minConfidenceThreshold`. -/
def minConfidenceThreshold : ℚ := 6 / 10

/-- The check of the `MACD Histogram Rising` rule: the histogram of the
last three history entries is strictly increasing. -/
def macdHistogramRisingCheck (_current : IndicatorResult)
    (history : List IndicatorResult) : Bool :=
  if history.length < 3 then false
  else
    let recent := lastN 3 history
    (List.range recent.length).all (fun i =>
      i == 0 || decide ((recent.getD i default).macd.histogram >
        (recent.getD (i - 1) default).macd.histogram))

/-- The check of the `RSI Oversold Recovery` rule, exactly as written:
`prev` is `history[history.length - 1]`, the LAST element of the
history passed in. -/
def rsiOversoldRecoveryCheck (current : IndicatorResult)
    (history : List IndicatorResult) : Bool :=
  if history.length < 2 then false
  else
    let prev := history.getD (history.length - 1) default
    decide (prev.rsi < 30) && decide (current.rsi > 30)

/-- The check of the `MACD Histogram Falling` rule. -/
def macdHistogramFallingCheck (_current : IndicatorResult)
    (history : List IndicatorResult) : Bool :=
  if history.length < 3 then false
  else
    let recent := lastN 3 history
    (List.range recent.length).all (fun i =>
      i == 0 || decide ((recent.getD i default).macd.histogram <
        (recent.getD (i - 1) default).macd.histogram))

/-- The check of the `RSI Overbought Decline` rule, exactly as written:
`prev` is the LAST element of the history passed in. -/
def rsiOverboughtDeclineCheck (current : IndicatorResult)
    (history : List IndicatorResult) : Bool :=
  if history.length < 2 then false
  else
    let prev := history.getD (history.length - 1) default
    decide (prev.rsi > 70) && decide (current.rsi < 70)

/-- `SignalEngine.bullishConfirmationRules`. -/
def bullishConfirmationRules : List ConfirmationRule :=
  [⟨"MACD Histogram Rising", macdHistogramRisingCheck, 3 / 10⟩,
   ⟨"EMA Fast Above Slow",
     fun current _ => decide (current.ema.fast > current.ema.slow), 25 / 100⟩,
   ⟨"RSI Oversold Recovery", rsiOversoldRecoveryCheck, 2 / 10⟩,
   ⟨"ADX Strong Trend", fun current _ => decide (current.adx > 25), 15 / 100⟩,
   ⟨"Stochastic Bullish",
     fun current _ => decide (current.stochastic.k > current.stochastic.d) &&
       decide (current.stochastic.k < 80), 1 / 10⟩]

/-- `SignalEngine.bearishConfirmationRules`. -/
def bearishConfirmationRules : List ConfirmationRule :=
  [⟨"MACD Histogram Falling", macdHistogramFallingCheck, 3 / 10⟩,
   ⟨"EMA Fast Below Slow",
     fun current _ => decide (current.ema.fast < current.ema.slow), 25 / 100⟩,
   ⟨"RSI Overbought Decline", rsiOverboughtDeclineCheck, 2 / 10⟩,
   ⟨"ADX Strong Trend", fun current _ => decide (current.adx > 25), 15 / 100⟩,
   ⟨"Stochastic Bearish",
     fun current _ => decide (current.stochastic.k < current.stochastic.d) &&
       decide (current.stochastic.k > 20), 1 / 10⟩]

/-- Result of `checkConfirmations`. -/
structure Confirmations where
  count : ℕ
  score : ℚ
  reasons : List String
deriving DecidableEq, Repr, Inhabited

/-- `SignalEngine.checkConfirmations`: runs every rule against the
current indicators and the engine's indicator history, accumulating
count, weighted score and the names of the rules that fired. -/
def checkConfirmations (indicators : IndicatorResult)
    (history : List IndicatorResult) (rules : List ConfirmationRule) :
    Confirmations :=
  rules.foldl
    (fun acc rule =>
      if rule.check indicators history then
        ⟨acc.count + 1, acc.score + rule.weight, acc.reasons ++ [rule.name]⟩
      else acc)
    ⟨0, 0, []⟩

/-- `SignalEngine.generateHoldSignal`. -/
def generateHoldSignal (symbol : String) (price : ℚ)
    (indicators : IndicatorResult) (reason : Option String := none) :
    InsertTradingSignal :=
  { pair := symbol
    timeframe := "1m"
    signal := "HOLD"
    confidence := 45 / 100
    reason := reason.getD "Mixed signals - insufficient confirmation for trade entry"
    entryPrice := price
    entryType := "market"
    stopLoss := none
    takeProfit := none
    predictionHorizonMins := 1
    expectedMovePct := 0
    indicatorValues := indicators
    backtestStats := ⟨1 / 2, 0, 0⟩ }

/-- `SignalEngine.generateBuySignal` (the engine's indicator history is
passed explicitly instead of read from `this`). -/
def generateBuySignal (history : List IndicatorResult) (symbol : String)
    (price : ℚ) (indicators : IndicatorResult)
    (divergence : DivergenceCandidate) : Option InsertTradingSignal :=
  let confirmations := checkConfirmations indicators history bullishConfirmationRules
  if confirmations.count < 2 then
    some (generateHoldSignal symbol price indicators
      (some ("Bullish divergence detected but insufficient confirmation (" ++
        toString confirmations.count ++ "/2)")))
  else
    let confidence := min (95 / 100)
      (6 / 10 + confirmations.score * (35 / 100) + divergence.strength * (2 / 10))
    if confidence < minConfidenceThreshold then none
    else
      some
        { pair := symbol
          timeframe := "1m"
          signal := "BUY"
          confidence := confidence
          reason := divergence.description ++ " + " ++
            String.intercalate " + " confirmations.reasons ++ " (" ++
            toString confirmations.count ++ "/2)"
          entryPrice := price
          entryType := "market"
          stopLoss := some (price * (998 / 1000))
          takeProfit := some (price * (1004 / 1000))
          predictionHorizonMins := 5
          expectedMovePct := 3 / 10
          indicatorValues := indicators
          backtestStats := ⟨67 / 100, 4 / 10, 2 / 10⟩ }

/-- `SignalEngine.generateSellSignal`. -/
def generateSellSignal (history : List IndicatorResult) (symbol : String)
    (price : ℚ) (indicators : IndicatorResult)
    (divergence : DivergenceCandidate) : Option InsertTradingSignal :=
  let confirmations := checkConfirmations indicators history bearishConfirmationRules
  if confirmations.count < 2 then
    some (generateHoldSignal symbol price indicators
      (some ("Bearish divergence detected but insufficient confirmation (" ++
        toString confirmations.count ++ "/2)")))
  else
    let confidence := min (95 / 100)
      (6 / 10 + confirmations.score * (35 / 100) + divergence.strength * (2 / 10))
    if confidence < minConfidenceThreshold then none
    else
      some
        { pair := symbol
          timeframe := "1m"
          signal := "SELL"
          confidence := confidence
          reason := divergence.description ++ " + " ++
            String.intercalate " + " confirmations.reasons ++ " (" ++
            toString confirmations.count ++ "/2)"
          entryPrice := price
          entryType := "market"
          stopLoss := some (price * (1002 / 1000))
          takeProfit := some (price * (996 / 1000))
          predictionHorizonMins := 5
          expectedMovePct := -(3 / 10)
          indicatorValues := indicators
          backtestStats := ⟨64 / 100, 4 / 10, 25 / 100⟩ }

/-- The mutable state of a `SignalEngine` instance. -/
structure EngineState where
  detector : DetectorState
  indicatorHistory : List IndicatorResult
deriving Inhabited

/-- A freshly constructed `SignalEngine`. -/
def EngineState.init : EngineState := ⟨DetectorState.init, []⟩

/-- `SignalEngine.processMarketData`: computes the indicators, pushes
them onto the (trimmed) history, feeds the divergence detector, and
dispatches on the strongest divergence of strength `> 0.5`.  Returns
the new engine state together with the signal (`none` models the
`return null` branch). -/
def processMarketData (s : EngineState) (symbol : String) (price : ℚ)
    (highs lows closes : List ℚ) :
    EngineState × Option InsertTradingSignal :=
  let indicators := calculateAllIndicators closes highs lows closes
  let pushed := s.indicatorHistory ++ [indicators]
  let history :=
    if pushed.length > engineMaxHistoryLength then
      lastN engineMaxHistoryLength pushed
    else pushed
  let detector := addDataPoint s.detector price indicators
  let s' : EngineState := ⟨detector, history⟩
  let divergences := detectDivergences detector
  let strongDivergences := divergences.filter (fun d => d.strength > 1 / 2)
  match strongDivergences with
  | [] => (s', some (generateHoldSignal symbol price indicators))
  | d0 :: rest =>
    let primaryDivergence := rest.foldl
      (fun prev current => if current.strength > prev.strength then current else prev) d0
    if primaryDivergence.type = "bullish" then
      (s', generateBuySignal history symbol price indicators primaryDivergence)
    else if primaryDivergence.type = "bearish" then
      (s', generateSellSignal history symbol price indicators primaryDivergence)
    else (s', some (generateHoldSignal symbol price indicators))

/-- One tick of input to `processMarketData`. -/
structure Tick where
  symbol : String
  price : ℚ
  highs : List ℚ
  lows : List ℚ
  closes : List ℚ
deriving Inhabited

/-- Feed a list of ticks through the engine, collecting the outputs. -/
def runEngine (s : EngineState) :
    List Tick → EngineState × List (Option InsertTradingSignal)
  | [] => (s, [])
  | t :: ts =>
    let step := processMarketData s t.symbol t.price t.highs t.lows t.closes
    let rest := runEngine step.1 ts
    (rest.1, step.2 :: rest.2)

/-- An extended JavaScript number: a rational, `NaN`, or one of the two
infinities.  Used where the `NaN`/`Infinity` results of dividing by
zero are observable (the stochastic oscillator's `k || 50`). -/
inductive JsNum where
  | num (q : ℚ)
  | posInf
  | negInf
  | nan
deriving DecidableEq, Repr, Inhabited

/-- JavaScript division of two finite numbers: `0/0` is `NaN`, `x/0`
for `x ≠ 0` is a signed infinity. -/
def jsDiv (a b : ℚ) : JsNum :=
  if b = 0 then
    if a = 0 then JsNum.nan
    else if a > 0 then JsNum.posInf
    else JsNum.negInf
  else JsNum.num (a / b)

/-- JavaScript multiplication of an extended number by a finite
constant. -/
def jsMul (x : JsNum) (c : ℚ) : JsNum :=
  match x with
  | JsNum.num q => JsNum.num (q * c)
  | JsNum.posInf =>
    if c > 0 then JsNum.posInf else if c < 0 then JsNum.negInf else JsNum.nan
  | JsNum.negInf =>
    if c > 0 then JsNum.negInf else if c < 0 then JsNum.posInf else JsNum.nan
  | JsNum.nan => JsNum.nan

/-- JavaScript falsiness of a number: `0` and `NaN` are falsy, the
infinities are truthy. -/
def jsFalsy : JsNum → Bool
  | JsNum.num q => q = 0
  | JsNum.nan => true
  | _ => false

/-- `x || v` of JavaScript on numbers. -/
def jsOr (x : JsNum) (v : ℚ) : JsNum :=
  if jsFalsy x then JsNum.num v else x

/-- The raw `%K` value of `calculateStochastic` before the `|| 50`
substitution, under exact JavaScript division semantics:
`((currentClose - lowestLow) / (highestHigh - lowestLow)) * 100`. -/
def stochRawK (highs lows closes : List ℚ) (kPeriod : ℕ := 14) : JsNum :=
  let recentHighs := lastN kPeriod highs
  let recentLows := lastN kPeriod lows
  let currentClose := closes.getD (closes.length - 1) 0
  let highestHigh := listMax recentHighs
  let lowestLow := listMin recentLows
  jsMul (jsDiv (currentClose - lowestLow) (highestHigh - lowestLow)) 100

/-- `TechnicalIndicators.calculateStochastic` with the division-by-zero
behaviour of JavaScript numbers modelled exactly: the raw `%K` may be
`NaN` or `±Infinity`, `d = k * 0.95`, and the result is
`{ k: k || 50, d: d || 50 }`. -/
def calculateStochasticJs (highs lows closes : List ℚ)
    (kPeriod : ℕ := 14) : JsNum × JsNum :=
  if closes.length < kPeriod then (JsNum.num 50, JsNum.num 50)
  else
    let k := stochRawK highs lows closes kPeriod
    let d := jsMul k (19 / 20)
    (jsOr k 50, jsOr d 50)

/-- Modelled from the spec's strength formula, for comparison with the
source's `calculateDivergenceStrength` (refinement check):
`min(1.0, (relative_price_change + relative_indicator_change) * min(time_gap/5, 1))`
where each relative change is `|Δvalue| / |reference_value|` and the
indicator denominator is floored at 1, i.e. `max 1 |ind1|`. -/
def specDivergenceStrength (point1 point2 indPoint1 indPoint2 :
    ExtremePoint) : ℚ :=
  min 1 ((|point2.value - point1.value| / |point1.value| +
    |indPoint2.value - indPoint1.value| / max 1 |indPoint1.value|) *
    min (|point2.index - point1.index| / 5) 1)

/-- Feed a list of `(price, indicators)` samples through
`addDataPoint`. -/
def runDetector (s : DetectorState) (inputs : List (ℚ × IndicatorResult)) :
    DetectorState :=
  inputs.foldl (fun st sample => addDataPoint st sample.1 sample.2) s

/-- The alignment invariant of the detector histories: the three
indicator-proxy histories have the price history's length, and that
common length is bounded by `maxHistoryLength`. -/
def DetectorInv (s : DetectorState) : Prop :=
  s.rsiHistory.length = s.priceHistory.length ∧
  s.macdHistory.length = s.priceHistory.length ∧
  s.stochasticHistory.length = s.priceHistory.length ∧
  s.priceHistory.length ≤ maxHistoryLength

/-- The engine-level invariant: the detector histories are aligned and
bounded, and the indicator snapshot history is bounded by
`engineMaxHistoryLength`. -/
def EngineInv (s : EngineState) : Prop :=
  DetectorInv s.detector ∧
  s.indicatorHistory.length ≤ engineMaxHistoryLength

/-- Well-formedness of an emitted signal: confidence clamped to
`[0, 0.95]`; `BUY`/`SELL` carry confidence at least the minimum
threshold and both protective levels; `HOLD` carries neither. -/
def WellFormedSignal (sig : InsertTradingSignal) : Prop :=
  (0 ≤ sig.confidence ∧ sig.confidence ≤ 95 / 100) ∧
  ((sig.signal = "BUY" ∨ sig.signal = "SELL") →
    minConfidenceThreshold ≤ sig.confidence ∧
    sig.stopLoss.isSome = true ∧ sig.takeProfit.isSome = true) ∧
  (sig.signal = "HOLD" → sig.stopLoss = none ∧ sig.takeProfit = none)

/-! ## Theorems -/

/-- Every hold signal is well-formed: confidence `0.45 ∈ [0, 0.95]`,
no protective levels, `HOLD` kind. -/
lemma hold_wellFormed (sym : String) (price : ℚ) (ind : IndicatorResult)
    (r : Option String) :
    WellFormedSignal (generateHoldSignal sym price ind r) := by
  unfold WellFormedSignal generateHoldSignal
  refine ⟨⟨by norm_num, by norm_num⟩, ?_, fun _ => ⟨rfl, rfl⟩⟩
  intro h
  rcases h with h | h <;> simp at h

/-- A buy signal emitted through `some` is well-formed: the `none`
branch filters out any confidence below the threshold, and the `min`
clamps it at `0.95`. -/
lemma generateBuySignal_wellFormed (hist : List IndicatorResult)
    (sym : String) (price : ℚ) (ind : IndicatorResult)
    (d : DivergenceCandidate) (sig : InsertTradingSignal)
    (h : generateBuySignal hist sym price ind d = some sig) :
    WellFormedSignal sig := by
  unfold generateBuySignal at h
  dsimp only at h
  split at h
  · injection h with h
    subst h
    exact hold_wellFormed _ _ _ _
  · split at h
    · exact absurd h (by simp)
    · rename_i hconf
      injection h with h
      subst h
      unfold minConfidenceThreshold at hconf
      rw [not_lt] at hconf
      unfold WellFormedSignal
      refine ⟨⟨by linarith, min_le_left _ _⟩, ?_, ?_⟩
      · intro _
        exact ⟨hconf, rfl, rfl⟩
      · intro habs
        simp at habs

/-- A sell signal emitted through `some` is well-formed. -/
lemma generateSellSignal_wellFormed (hist : List IndicatorResult)
    (sym : String) (price : ℚ) (ind : IndicatorResult)
    (d : DivergenceCandidate) (sig : InsertTradingSignal)
    (h : generateSellSignal hist sym price ind d = some sig) :
    WellFormedSignal sig := by
  unfold generateSellSignal at h
  dsimp only at h
  split at h
  · injection h with h
    subst h
    exact hold_wellFormed _ _ _ _
  · split at h
    · exact absurd h (by simp)
    · rename_i hconf
      injection h with h
      subst h
      unfold minConfidenceThreshold at hconf
      rw [not_lt] at hconf
      unfold WellFormedSignal
      refine ⟨⟨by linarith, min_le_left _ _⟩, ?_, ?_⟩
      · intro _
        exact ⟨hconf, rfl, rfl⟩
      · intro habs
        simp at habs

/-- Claim C1: every signal returned by `processMarketData` is
well-formed: its confidence lies in `[0, 0.95]`; a `BUY`/`SELL` signal
has confidence at least `0.6` and both `stopLoss` and `takeProfit`
set; a `HOLD` signal has `stopLoss` and `takeProfit` both `null`. -/
theorem processMarketData_wellFormed :
    ∀ (s : EngineState) (sym : String) (price : ℚ)
      (highs lows closes : List ℚ) (sig : InsertTradingSignal),
      (processMarketData s sym price highs lows closes).2 = some sig →
      WellFormedSignal sig := by
  intro s sym price highs lows closes sig h
  unfold processMarketData at h
  dsimp only at h
  split at h
  · injection h with h
    subst h
    exact hold_wellFormed _ _ _ _
  · split at h
    · exact generateBuySignal_wellFormed _ _ _ _ _ _ h
    · split at h
      · exact generateSellSignal_wellFormed _ _ _ _ _ _ h
      · injection h with h
        subst h
        exact hold_wellFormed _ _ _ _

/-- Witness for C1: a fresh engine fed one tick with empty series
yields a hold signal, and the theorem applies to it. -/
theorem processMarketData_wellFormed_witness :
    WellFormedSignal (generateHoldSignal "EURUSD" 1
      (calculateAllIndicators [] [] [] [])) :=
  processMarketData_wellFormed EngineState.init "EURUSD" 1 [] [] []
    (generateHoldSignal "EURUSD" 1 (calculateAllIndicators [] [] [] [])) rfl

/-- The last entry of a list, through `getD (length - 1)`. -/
lemma getD_last (l : List IndicatorResult) (x : IndicatorResult)
    (h : l.getLast? = some x) : l.getD (l.length - 1) default = x := by
  rw [List.getD_eq_getElem?_getD, ← List.getLast?_eq_getElem?, h]
  rfl

/-- Claim C2: the RSI confirmation rules read
`history[history.length - 1]` as the previous snapshot, but
`processMarketData` pushes the current snapshot before checking, so the
last history entry IS the current snapshot: whenever the history ends
with the current snapshot both RSI rules are unsatisfiable
(`rsi < 30 ∧ rsi > 30`, resp. `rsi > 70 ∧ rsi < 70`) and evaluate to
`false`; the history built by `processMarketData` always ends with the
current snapshot; and on the concrete input where the previous tick's
RSI is 20 and the current is 40 — where the spec's rule is satisfied —
the code's rule still returns `false`. -/
theorem rsi_rules_never_fire :
    (∀ (current : IndicatorResult) (history : List IndicatorResult),
      history.getLast? = some current →
      rsiOversoldRecoveryCheck current history = false ∧
      rsiOverboughtDeclineCheck current history = false) ∧
    (∀ (l : List IndicatorResult) (x : IndicatorResult),
      (if (l ++ [x]).length > engineMaxHistoryLength then
        lastN engineMaxHistoryLength (l ++ [x])
       else l ++ [x]).getLast? = some x) ∧
    ((⟨20, ⟨0, 0, 0⟩, ⟨0, 0⟩, ⟨0, 0⟩, 0⟩ : IndicatorResult).rsi < 30 ∧
     (⟨40, ⟨0, 0, 0⟩, ⟨0, 0⟩, ⟨0, 0⟩, 0⟩ : IndicatorResult).rsi > 30 ∧
     rsiOversoldRecoveryCheck ⟨40, ⟨0, 0, 0⟩, ⟨0, 0⟩, ⟨0, 0⟩, 0⟩
       [⟨20, ⟨0, 0, 0⟩, ⟨0, 0⟩, ⟨0, 0⟩, 0⟩,
        ⟨40, ⟨0, 0, 0⟩, ⟨0, 0⟩, ⟨0, 0⟩, 0⟩] = false) := by
  refine ⟨fun current history h => ⟨?_, ?_⟩, fun l x => ?_, ?_, ?_, ?_⟩
  · unfold rsiOversoldRecoveryCheck
    split
    · rfl
    · dsimp only
      rw [getD_last _ _ h]
      rcases lt_or_le current.rsi 30 with h30 | h30
      · have : ¬ current.rsi > 30 := by linarith
        simp [this]
      · simp [not_lt.mpr h30]
  · unfold rsiOverboughtDeclineCheck
    split
    · rfl
    · dsimp only
      rw [getD_last _ _ h]
      rcases lt_or_le current.rsi 70 with h70 | h70
      · simp [not_lt.mpr h70.le]
      · have : ¬ current.rsi < 70 := by linarith
        simp [this]
  · split
    · rename_i hlen
      simp only [List.length_append, List.length_singleton] at hlen
      unfold lastN
      rw [List.drop_append_eq_append_drop]
      have h0 : (l ++ [x]).length - engineMaxHistoryLength - l.length = 0 := by
        simp only [List.length_append, List.length_singleton]
        unfold engineMaxHistoryLength at *
        omega
      rw [h0, List.drop_zero]
      exact List.getLast?_concat _
    · exact List.getLast?_concat _
  · norm_num
  · norm_num
  · simp [rsiOversoldRecoveryCheck, decide_eq_false_iff_not]
    norm_num

/-- Witness for C2: the unsatisfiability applies at a concrete
two-snapshot history ending with the current snapshot. -/
theorem rsi_rules_never_fire_witness :
    rsiOversoldRecoveryCheck ⟨40, ⟨0, 0, 0⟩, ⟨0, 0⟩, ⟨0, 0⟩, 0⟩
      [⟨20, ⟨0, 0, 0⟩, ⟨0, 0⟩, ⟨0, 0⟩, 0⟩,
       ⟨40, ⟨0, 0, 0⟩, ⟨0, 0⟩, ⟨0, 0⟩, 0⟩] = false ∧
    rsiOverboughtDeclineCheck ⟨40, ⟨0, 0, 0⟩, ⟨0, 0⟩, ⟨0, 0⟩, 0⟩
      [⟨20, ⟨0, 0, 0⟩, ⟨0, 0⟩, ⟨0, 0⟩, 0⟩,
       ⟨40, ⟨0, 0, 0⟩, ⟨0, 0⟩, ⟨0, 0⟩, 0⟩] = false :=
  rsi_rules_never_fire.1 ⟨40, ⟨0, 0, 0⟩, ⟨0, 0⟩, ⟨0, 0⟩, 0⟩
    [⟨20, ⟨0, 0, 0⟩, ⟨0, 0⟩, ⟨0, 0⟩, 0⟩,
     ⟨40, ⟨0, 0, 0⟩, ⟨0, 0⟩, ⟨0, 0⟩, 0⟩] rfl

/-- The accumulated confirmation score is nonnegative whenever every
rule weight is. -/
lemma checkConfirmations_score_nonneg (ind : IndicatorResult)
    (hist : List IndicatorResult) (rules : List ConfirmationRule)
    (hw : ∀ r ∈ rules, 0 ≤ r.weight) :
    0 ≤ (checkConfirmations ind hist rules).score := by
  unfold checkConfirmations
  suffices h : ∀ (rs : List ConfirmationRule) (acc : Confirmations),
      (∀ r ∈ rs, 0 ≤ r.weight) → 0 ≤ acc.score →
      0 ≤ (rs.foldl (fun acc rule =>
        if rule.check ind hist then
          ⟨acc.count + 1, acc.score + rule.weight, acc.reasons ++ [rule.name]⟩
        else acc) acc).score by
    exact h rules ⟨0, 0, []⟩ hw le_rfl
  intro rs
  induction rs with
  | nil => intro acc _ hacc; simpa using hacc
  | cons r t ih =>
    intro acc hw hacc
    simp only [List.foldl_cons]
    apply ih
    · intro x hx; exact hw x (List.mem_cons_of_mem _ hx)
    · split
      · exact add_nonneg hacc (hw r (List.mem_cons_self _ _))
      · exact hacc

/-- All bullish rule weights are nonnegative. -/
lemma bullish_weights_nonneg :
    ∀ r ∈ bullishConfirmationRules, 0 ≤ r.weight := by
  intro r hr
  simp only [bullishConfirmationRules, List.mem_cons,
    List.not_mem_nil, or_false] at hr
  rcases hr with rfl | rfl | rfl | rfl | rfl <;> norm_num

/-- All bearish rule weights are nonnegative. -/
lemma bearish_weights_nonneg :
    ∀ r ∈ bearishConfirmationRules, 0 ≤ r.weight := by
  intro r hr
  simp only [bearishConfirmationRules, List.mem_cons,
    List.not_mem_nil, or_false] at hr
  rcases hr with rfl | rfl | rfl | rfl | rfl <;> norm_num

/-- `generateBuySignal` never takes its `return null` branch when the
divergence's strength exceeds `0.5`: the confidence
`min(0.95, 0.6 + score·0.35 + strength·0.2)` is at least `0.6`. -/
lemma generateBuySignal_isSome (hist : List IndicatorResult) (sym : String)
    (price : ℚ) (ind : IndicatorResult) (d : DivergenceCandidate)
    (hd : d.strength > 1 / 2) :
    generateBuySignal hist sym price ind d ≠ none := by
  unfold generateBuySignal
  dsimp only
  split
  · simp
  · split
    · rename_i hconf
      exfalso
      have hs := checkConfirmations_score_nonneg ind hist
        bullishConfirmationRules bullish_weights_nonneg
      unfold minConfidenceThreshold at hconf
      have p1 : 0 ≤ (checkConfirmations ind hist bullishConfirmationRules).score *
          (35 / 100 : ℚ) := mul_nonneg hs (by norm_num)
      have p2 : (0:ℚ) ≤ d.strength * (2 / 10) :=
        mul_nonneg (by linarith) (by norm_num)
      have hge : (6:ℚ)/10 ≤ min (95/100)
          (6/10 + (checkConfirmations ind hist bullishConfirmationRules).score *
            (35/100) + d.strength * (2/10)) :=
        le_min (by norm_num) (by linarith)
      linarith
    · simp

/-- `generateSellSignal` never takes its `return null` branch when the
divergence's strength exceeds `0.5`. -/
lemma generateSellSignal_isSome (hist : List IndicatorResult) (sym : String)
    (price : ℚ) (ind : IndicatorResult) (d : DivergenceCandidate)
    (hd : d.strength > 1 / 2) :
    generateSellSignal hist sym price ind d ≠ none := by
  unfold generateSellSignal
  dsimp only
  split
  · simp
  · split
    · rename_i hconf
      exfalso
      have hs := checkConfirmations_score_nonneg ind hist
        bearishConfirmationRules bearish_weights_nonneg
      unfold minConfidenceThreshold at hconf
      have p1 : 0 ≤ (checkConfirmations ind hist bearishConfirmationRules).score *
          (35 / 100 : ℚ) := mul_nonneg hs (by norm_num)
      have p2 : (0:ℚ) ≤ d.strength * (2 / 10) :=
        mul_nonneg (by linarith) (by norm_num)
      have hge : (6:ℚ)/10 ≤ min (95/100)
          (6/10 + (checkConfirmations ind hist bearishConfirmationRules).score *
            (35/100) + d.strength * (2/10)) :=
        le_min (by norm_num) (by linarith)
      linarith
    · simp

/-- The `reduce` that picks the strongest divergence preserves the
strength lower bound. -/
lemma foldl_pick_strength (l : List DivergenceCandidate)
    (d0 : DivergenceCandidate) (h0 : d0.strength > 1 / 2)
    (hl : ∀ x ∈ l, x.strength > 1 / 2) :
    (l.foldl (fun prev current =>
      if current.strength > prev.strength then current else prev) d0).strength >
      1 / 2 := by
  induction l generalizing d0 with
  | nil => simpa using h0
  | cons a t ih =>
    simp only [List.foldl_cons]
    apply ih
    · split
      · exact hl a (List.mem_cons_self _ _)
      · exact h0
    · intro x hx
      exact hl x (List.mem_cons_of_mem _ hx)

/-- Claim C3: `processMarketData` never returns `null`: whenever a
divergence of strength above `0.5` is selected, the computed
confidence is at least `0.6` (the score is a sum of nonnegative
weights), so the suppression branch is unreachable and every call
yields a signal. -/
theorem processMarketData_never_none :
    ∀ (s : EngineState) (sym : String) (price : ℚ)
      (highs lows closes : List ℚ),
      (processMarketData s sym price highs lows closes).2 ≠ none := by
  intro s sym price highs lows closes
  unfold processMarketData
  dsimp only
  split
  · simp
  · rename_i d0 rest heq
    have hmem : ∀ x ∈ d0 :: rest, x.strength > 1 / 2 := by
      intro x hx
      rw [← heq] at hx
      exact of_decide_eq_true (List.mem_filter.mp hx).2
    have hstrength := foldl_pick_strength rest d0
      (hmem d0 (List.mem_cons_self _ _))
      (fun x hx => hmem x (List.mem_cons_of_mem _ hx))
    split
    · exact generateBuySignal_isSome _ _ _ _ _ hstrength
    · split
      · exact generateSellSignal_isSome _ _ _ _ _ hstrength
      · simp

/-- Claim C4 counterexample: with exactly 14 close samples — fewer
than 15 — `calculateStochastic` does NOT return the `(50, 50)` default
but computes the formula (here `k = 75`). -/
theorem indicator_defaults_counterexample :
    ([0, 0, 0, 0, 0, 0, 0, 0, 0, 0, 0, 0, 0, (3:ℚ)/2] : List ℚ).length < 15 ∧
    calculateStochastic [2, 2, 2, 2, 2, 2, 2, 2, 2, 2, 2, 2, 2, 2]
      [0, 0, 0, 0, 0, 0, 0, 0, 0, 0, 0, 0, 0, 0]
      [0, 0, 0, 0, 0, 0, 0, 0, 0, 0, 0, 0, 0, 3/2] ≠ ⟨50, 50⟩ := by
  constructor
  · decide
  · norm_num [calculateStochastic, lastN, listMax, listMin, StochResult.mk.injEq]

/-- Claim C4 (amended): the short-input defaults hold with the guards
the code actually uses: RSI returns 50 below 15 samples, Stochastic
returns `(50, 50)` below 14 samples (`kPeriod`, not `kPeriod + 1`),
MACD returns the zero triple below 26 samples (`slowPeriod`, not
`slowPeriod + 1`), and ADX returns 25 below 15 samples. -/
theorem indicator_defaults :
    (∀ prices : List ℚ, prices.length < 15 → calculateRSI prices = 50) ∧
    (∀ highs lows closes : List ℚ, closes.length < 14 →
      calculateStochastic highs lows closes = ⟨50, 50⟩) ∧
    (∀ prices : List ℚ, prices.length < 26 → calculateMACD prices = ⟨0, 0, 0⟩) ∧
    (∀ highs lows closes : List ℚ, closes.length < 15 →
      calculateADX highs lows closes = 25) := by
  refine ⟨fun p h => ?_, fun hs ls cs h => ?_, fun p h => ?_, fun hs ls cs h => ?_⟩
  · unfold calculateRSI
    rw [if_pos (by omega)]
  · unfold calculateStochastic
    rw [if_pos (by omega)]
  · unfold calculateMACD
    rw [if_pos (by omega)]
  · unfold calculateADX
    rw [if_pos (by omega)]

/-- Witness for C4: the defaults at empty inputs. -/
theorem indicator_defaults_witness :
    calculateRSI [] = 50 ∧ calculateStochastic [] [] [] = ⟨50, 50⟩ ∧
    calculateMACD [] = ⟨0, 0, 0⟩ ∧ calculateADX [] [] [] = 25 :=
  ⟨indicator_defaults.1 [] (by decide),
   indicator_defaults.2.1 [] [] [] (by decide),
   indicator_defaults.2.2.1 [] (by decide),
   indicator_defaults.2.2.2 [] [] [] (by decide)⟩

/-- Claim C5 counterexample: with an indicator reference value of
`1/2`, the code divides by `|1/2| = 1/2` (the `|x || 1|` idiom only
substitutes 1 for an exact zero), while the spec's `max(1, |x|)` floor
would divide by 1 — the two formulas disagree. -/
theorem strength_denominator_counterexample :
    calculateDivergenceStrength ⟨1, 1⟩ ⟨3, 1⟩ ⟨1, 1/2⟩ ⟨3, 1⟩ ≠
      specDivergenceStrength ⟨1, 1⟩ ⟨3, 1⟩ ⟨1, 1/2⟩ ⟨3, 1⟩ := by
  norm_num [calculateDivergenceStrength, specDivergenceStrength, min_def,
    max_def, abs_of_nonneg]

/-- Claim C5 (amended): for a positive first price extremum the
strength equals
`min(1, (|Δprice|/|price_ref| + |Δind|/d) · min(time_gap/5, 1))` where
the indicator denominator `d` is `|ind_ref|` when the reference is
nonzero and `1` only when it is exactly zero (not `max(1, |ind_ref|)`). -/
theorem strength_formula :
    ∀ point1 point2 indPoint1 indPoint2 : ExtremePoint, 0 < point1.value →
      calculateDivergenceStrength point1 point2 indPoint1 indPoint2 =
        min 1 ((|point2.value - point1.value| / |point1.value| +
          |indPoint2.value - indPoint1.value| /
            (if indPoint1.value = 0 then 1 else |indPoint1.value|)) *
          min (|point2.index - point1.index| / 5) 1) := by
  intro p1 p2 i1 i2 h
  unfold calculateDivergenceStrength
  rw [abs_of_pos h, apply_ite abs, abs_one, min_comm]

/-- Witness for C5: the amended formula evaluated at a concrete
quadruple of extrema. -/
theorem strength_formula_witness :
    calculateDivergenceStrength ⟨1, 1⟩ ⟨3, 1⟩ ⟨1, 1/2⟩ ⟨3, 1⟩ =
      min 1 ((|(1:ℚ) - 1| / |(1:ℚ)| + |(1:ℚ) - 1/2| /
        (if (1/2 : ℚ) = 0 then 1 else |(1/2:ℚ)|)) *
        min ((|(3:ℚ) - 1|) / 5) 1) :=
  strength_formula ⟨1, 1⟩ ⟨3, 1⟩ ⟨1, 1/2⟩ ⟨3, 1⟩ (by norm_num)

/-- One `addDataPoint` grows the price history by at most one entry. -/
lemma addDataPoint_length_le (s : DetectorState) (price : ℚ)
    (ind : IndicatorResult) :
    (addDataPoint s price ind).priceHistory.length ≤
      s.priceHistory.length + 1 := by
  unfold addDataPoint
  dsimp only
  split
  · simp [lastN]
  · simp

/-- Feeding `n` samples leaves at most `n` more entries than the
starting state held. -/
lemma runDetector_length_le (inputs : List (ℚ × IndicatorResult))
    (s : DetectorState) :
    (runDetector s inputs).priceHistory.length ≤
      s.priceHistory.length + inputs.length := by
  induction inputs generalizing s with
  | nil => simp [runDetector]
  | cons a t ih =>
    simp only [runDetector, List.foldl_cons, List.length_cons]
    have h1 := ih (addDataPoint s a.1 a.2)
    have h2 := addDataPoint_length_le s a.1 a.2
    unfold runDetector at h1
    omega

/-- Claim C6: a detector that has received fewer than 5 samples since
construction detects no divergences, for every indicator. -/
theorem detect_fresh_short_empty :
    ∀ inputs : List (ℚ × IndicatorResult), inputs.length < 5 →
      detectDivergences (runDetector DetectorState.init inputs) = [] := by
  intro inputs h
  have hlen := runDetector_length_le inputs DetectorState.init
  have h0 : DetectorState.init.priceHistory.length = 0 := rfl
  unfold detectDivergences
  rw [if_pos]
  unfold minBarsForDivergence
  omega

/-- Witness for C6: two samples into a fresh detector. -/
theorem detect_fresh_short_empty_witness :
    detectDivergences (runDetector DetectorState.init
      [(1, default), (2, default)]) = [] :=
  detect_fresh_short_empty [(1, default), (2, default)] (by decide)

/-- The source's strength is clamped by `min · 1`. -/
lemma calculateDivergenceStrength_le_one (p1 p2 i1 i2 : ExtremePoint) :
    calculateDivergenceStrength p1 p2 i1 i2 ≤ 1 := by
  unfold calculateDivergenceStrength
  exact min_le_right _ _

/-- Candidates emitted by `checkIndicatorDivergence` carry a strength
in `[0, 1]`: the `> 0.3` filter gives the lower bound and the `min`
clamp the upper one. -/
lemma mem_check_strength (prices vals : List ℚ) (name : String)
    (c : DivergenceCandidate)
    (hc : c ∈ checkIndicatorDivergence prices vals name) :
    0 ≤ c.strength ∧ c.strength ≤ 1 := by
  unfold checkIndicatorDivergence at hc
  dsimp only at hc
  split at hc
  · simp at hc
  · rcases List.mem_append.mp hc with h | h <;>
    · clear hc
      split at h
      · split at h
        · split at h
          · rename_i hgt
            rw [List.mem_singleton] at h
            subst h
            refine ⟨le_of_lt (lt_trans (by norm_num) hgt),
              calculateDivergenceStrength_le_one _ _ _ _⟩
          · simp at h
        · simp at h
      · simp at h

/-- Candidates emitted by `detectDivergences` carry a strength in
`[0, 1]`. -/
lemma mem_detect_strength (s : DetectorState) (c : DivergenceCandidate)
    (hc : c ∈ detectDivergences s) : 0 ≤ c.strength ∧ c.strength ≤ 1 := by
  unfold detectDivergences at hc
  split at hc
  · simp at hc
  · rcases List.mem_append.mp hc with h | h
    · rcases List.mem_append.mp h with h2 | h2
      · exact mem_check_strength _ _ _ _ h2
      · exact mem_check_strength _ _ _ _ h2
    · exact mem_check_strength _ _ _ _ h

/-- Claim C7: for extrema with positive price values the divergence
strength lies in `[0, 1]`, and every candidate emitted by
`detectDivergences` carries a strength in `[0, 1]`. -/
theorem strength_in_unit_interval :
    (∀ point1 point2 indPoint1 indPoint2 : ExtremePoint,
      0 < point1.value → 0 < point2.value →
      0 ≤ calculateDivergenceStrength point1 point2 indPoint1 indPoint2 ∧
      calculateDivergenceStrength point1 point2 indPoint1 indPoint2 ≤ 1) ∧
    (∀ (s : DetectorState) (c : DivergenceCandidate),
      c ∈ detectDivergences s → 0 ≤ c.strength ∧ c.strength ≤ 1) := by
  constructor
  · intro p1 p2 i1 i2 h1 _
    constructor
    · unfold calculateDivergenceStrength
      dsimp only
      refine le_min (mul_nonneg (add_nonneg ?_ ?_) ?_) zero_le_one
      · exact div_nonneg (abs_nonneg _) h1.le
      · exact div_nonneg (abs_nonneg _) (abs_nonneg _)
      · exact le_min (div_nonneg (abs_nonneg _) (by norm_num)) zero_le_one
    · exact calculateDivergenceStrength_le_one _ _ _ _
  · exact mem_detect_strength

/-- Witness for C7: concrete positive extrema, and a concrete detector
state whose single candidate the theorem covers. -/
theorem strength_in_unit_interval_witness :
    (0 ≤ calculateDivergenceStrength ⟨1, 1⟩ ⟨3, 1/2⟩ ⟨1, 5⟩ ⟨3, 6⟩ ∧
      calculateDivergenceStrength ⟨1, 1⟩ ⟨3, 1/2⟩ ⟨1, 5⟩ ⟨3, 6⟩ ≤ 1) ∧
    (0 ≤ (⟨"bullish", "RSI", 4/5, [⟨1, 1⟩, ⟨3, 0⟩], [⟨1, 1⟩, ⟨3, 2⟩],
        "RSI" ++ " bullish divergence: price making lower lows while " ++
          "RSI" ++ " shows higher lows"⟩ : DivergenceCandidate).strength ∧
      (⟨"bullish", "RSI", 4/5, [⟨1, 1⟩, ⟨3, 0⟩], [⟨1, 1⟩, ⟨3, 2⟩],
        "RSI" ++ " bullish divergence: price making lower lows while " ++
          "RSI" ++ " shows higher lows"⟩ : DivergenceCandidate).strength ≤ 1) :=
  ⟨strength_in_unit_interval.1 ⟨1, 1⟩ ⟨3, 1/2⟩ ⟨1, 5⟩ ⟨3, 6⟩ (by norm_num)
     (by norm_num),
   strength_in_unit_interval.2
     ⟨[5, 1, 5, 0, 5], [5, 1, 5, 2, 5], [0, 0, 0, 0, 0], [0, 0, 0, 0, 0]⟩ _
     (by
      norm_num [detectDivergences, checkIndicatorDivergence, findExtremes,
        calculateDivergenceStrength, lastN, minBarsForDivergence,
        List.range_succ, List.filterMap, min_def, max_def, abs_of_nonneg])⟩

/-- `lastN` keeps `length - (length - n)` elements. -/
lemma lastN_length (n : ℕ) (l : List α) :
    (lastN n l).length = l.length - (l.length - n) := by
  simp [lastN]

/-- `addDataPoint` preserves the alignment invariant: all four
histories are pushed together and trimmed together. -/
lemma addDataPoint_inv (s : DetectorState) (price : ℚ)
    (ind : IndicatorResult) (h : DetectorInv s) :
    DetectorInv (addDataPoint s price ind) := by
  obtain ⟨h1, h2, h3, h4⟩ := h
  unfold addDataPoint
  dsimp only
  split
  · rename_i hlen
    unfold DetectorInv
    dsimp only
    simp only [lastN_length, List.length_append, List.length_singleton]
    simp only [List.length_append, List.length_singleton] at hlen
    omega
  · rename_i hlen
    unfold DetectorInv
    dsimp only
    simp only [List.length_append, List.length_singleton]
    simp only [not_lt, gt_iff_lt, not_lt, List.length_append,
      List.length_singleton] at hlen
    omega

/-- The state component of `processMarketData`: detector fed with the
new data point, indicator history pushed and trimmed, on every
branch. -/
lemma processMarketData_fst (s : EngineState) (sym : String) (price : ℚ)
    (highs lows closes : List ℚ) :
    (processMarketData s sym price highs lows closes).1 =
      ⟨addDataPoint s.detector price
        (calculateAllIndicators closes highs lows closes),
       if (s.indicatorHistory ++
           [calculateAllIndicators closes highs lows closes]).length >
          engineMaxHistoryLength then
         lastN engineMaxHistoryLength (s.indicatorHistory ++
           [calculateAllIndicators closes highs lows closes])
       else s.indicatorHistory ++
         [calculateAllIndicators closes highs lows closes]⟩ := by
  unfold processMarketData
  dsimp only
  split
  · rfl
  · split
    · rfl
    · split
      · rfl
      · rfl

/-- One `processMarketData` call preserves the engine invariant. -/
lemma processMarketData_inv (s : EngineState) (sym : String) (price : ℚ)
    (highs lows closes : List ℚ) (h : EngineInv s) :
    EngineInv (processMarketData s sym price highs lows closes).1 := by
  obtain ⟨hd, hh⟩ := h
  rw [processMarketData_fst]
  refine ⟨addDataPoint_inv _ _ _ hd, ?_⟩
  dsimp only
  split
  · rename_i hlen
    simp only [lastN_length, List.length_append, List.length_singleton]
    omega
  · rename_i hlen
    simp only [not_lt, gt_iff_lt] at hlen
    exact hlen

/-- A fresh engine satisfies the invariant. -/
lemma engineInit_inv : EngineInv EngineState.init :=
  ⟨⟨rfl, rfl, rfl, by decide⟩, by decide⟩

/-- Any run preserves the engine invariant. -/
lemma runEngine_inv (ticks : List Tick) (s : EngineState)
    (h : EngineInv s) : EngineInv (runEngine s ticks).1 := by
  induction ticks generalizing s with
  | nil => simpa [runEngine]
  | cons t ts ih =>
    simp only [runEngine]
    exact ih _ (processMarketData_inv _ _ _ _ _ _ h)

/-- Claim C8: after every `addDataPoint` and after every
`processMarketData` of a run starting from a fresh engine, the price
history and the three indicator-proxy histories share one length of at
most 100, and the engine's indicator snapshot history has length at
most 50. -/
theorem history_lengths_bounded :
    (∀ (s : DetectorState) (price : ℚ) (ind : IndicatorResult),
      DetectorInv s → DetectorInv (addDataPoint s price ind)) ∧
    (∀ ticks : List Tick, EngineInv (runEngine EngineState.init ticks).1) :=
  ⟨addDataPoint_inv, fun ticks => runEngine_inv ticks _ engineInit_inv⟩

/-- Witness for C8: one data point into a fresh detector, and a
one-tick run of a fresh engine. -/
theorem history_lengths_bounded_witness :
    DetectorInv (addDataPoint DetectorState.init 1 default) ∧
    EngineInv (runEngine EngineState.init [⟨"EURUSD", 1, [], [], []⟩]).1 :=
  ⟨history_lengths_bounded.1 DetectorState.init 1 default
    ⟨rfl, rfl, rfl, by decide⟩,
   history_lengths_bounded.2 [⟨"EURUSD", 1, [], [], []⟩]⟩

/-- Claim C9: the engine is deterministic — two freshly constructed
engines fed the same tick sequence produce identical signal sequences
(the embedding is a pure function of the state and the inputs; the
source path reads no clock and no randomness). -/
theorem engine_deterministic :
    ∀ (ticks : List Tick) (e1 e2 : EngineState),
      e1 = EngineState.init → e2 = EngineState.init →
      (runEngine e1 ticks).2 = (runEngine e2 ticks).2 := by
  intro ticks e1 e2 h1 h2
  rw [h1, h2]

/-- Witness for C9: a concrete one-tick replay. -/
theorem engine_deterministic_witness :
    (runEngine EngineState.init [⟨"EURUSD", 1, [], [], []⟩]).2 =
      (runEngine EngineState.init [⟨"EURUSD", 1, [], [], []⟩]).2 :=
  engine_deterministic [⟨"EURUSD", 1, [], [], []⟩] _ _ rfl rfl

/-- Claim C10 counterexample: with 14 closes, a window whose highest
high equals its lowest low but whose current close differs gives
`%K = +Infinity` — truthy — so the code returns `Infinity`, not the 50
the claim's `NaN (highest high = lowest low)` reading predicts. -/
theorem stoch_infinity_counterexample :
    14 ≤ ([1, 1, 1, 1, 1, 1, 1, 1, 1, 1, 1, 1, 1, (1:ℚ)] : List ℚ).length ∧
    listMax (lastN 14 ([0, 0, 0, 0, 0, 0, 0, 0, 0, 0, 0, 0, 0, (0:ℚ)] : List ℚ)) =
      listMin (lastN 14 ([0, 0, 0, 0, 0, 0, 0, 0, 0, 0, 0, 0, 0, (0:ℚ)] : List ℚ)) ∧
    (calculateStochasticJs [0, 0, 0, 0, 0, 0, 0, 0, 0, 0, 0, 0, 0, 0]
      [0, 0, 0, 0, 0, 0, 0, 0, 0, 0, 0, 0, 0, 0]
      [1, 1, 1, 1, 1, 1, 1, 1, 1, 1, 1, 1, 1, 1]).1 = JsNum.posInf := by
  refine ⟨by decide, by norm_num [lastN, listMax, listMin], ?_⟩
  norm_num [calculateStochasticJs, stochRawK, lastN, listMax, listMin,
    jsDiv, jsMul, jsOr, jsFalsy]

/-- Claim C10 (amended): with at least `kPeriod` closes, whenever the
raw `%K` is exactly 0 (close equals the window's lowest low, highest
high distinct) or `NaN` (highest high equals lowest low AND the close
equals them), the `k || 50` idiom substitutes 50 for both `k` and `d`;
a `±Infinity` raw `%K` is truthy and passes through unchanged. -/
theorem stoch_substitution :
    ∀ highs lows closes : List ℚ, 14 ≤ closes.length →
      (stochRawK highs lows closes = JsNum.num 0 ∨
       stochRawK highs lows closes = JsNum.nan) →
      calculateStochasticJs highs lows closes = (JsNum.num 50, JsNum.num 50) := by
  intro highs lows closes hlen hraw
  unfold calculateStochasticJs
  rw [if_neg (by omega)]
  rcases hraw with h | h <;> rw [h] <;> simp [jsMul, jsOr, jsFalsy]

/-- Witness for C10: a window with the close pinned to the lowest low
gives a raw `%K` of zero and the substituted `(50, 50)`. -/
theorem stoch_substitution_witness :
    calculateStochasticJs [2, 2, 2, 2, 2, 2, 2, 2, 2, 2, 2, 2, 2, 2]
      [0, 0, 0, 0, 0, 0, 0, 0, 0, 0, 0, 0, 0, 0]
      [0, 0, 0, 0, 0, 0, 0, 0, 0, 0, 0, 0, 0, 0] = (JsNum.num 50, JsNum.num 50) :=
  stoch_substitution _ _ _ (by decide)
    (Or.inl (by norm_num [stochRawK, lastN, listMax, listMin, jsDiv, jsMul]))

end ForexPredict
